import Mathlib

/-!
Shallow embedding of the `code test` orchestration of this repository:
the ecosystem plugin `test` function (`src/unnamed/part_000`) and the
report-upload response handling (`src/src/lib/plugins/sast/report.ts`).

External collaborators (settings fetch, analysis request, output
formatter, HTTP transport) are parameters of the embedded functions;
everything in between is translated from the source line by line.
JavaScript peculiarities that matter are kept: falsiness of `undefined`
and of the empty string, strict `===` comparison of field values,
optional chaining (including the place where it is missing), and
`hasOwnProperty`-style duck typing of caught error objects.
-/

namespace SnykCode

/-- A JavaScript field value: the only values the embedded code ever
compares with `===` are numbers and strings. -/
inductive JsVal where
  | num (n : Int)
  | str (s : String)
  deriving DecidableEq

/-- The constructor (class identity) of a thrown value. `plain` stands for a
bare `Error`; `external` stands for a value thrown by a collaborator that is
not an `Error` instance unless its `isErrorInstance` flag says so. -/
inductive ErrorKind where
  | plain
  | typeError
  | noSupportedSastFiles
  | failedToRunTest
  | authFailed
  | validation
  | external
  deriving DecidableEq

/-- A thrown JavaScript value, seen through the fields the orchestrator's
catch block probes. `some v` on `statusCode`, `statusText`, `apiName`,
`code` means the object has that own property with value `v` (so
`hasOwnProperty` is `Option.isSome`); `isErrorInstance` is
`instanceof Error`. The two `...StringifiedResults` fields carry the
payloads attached by `throwIssuesError`. -/
structure JsErr where
  isErrorInstance : Bool := false
  message : String := ""
  statusCode : Option JsVal := none
  statusText : Option JsVal := none
  apiName : Option JsVal := none
  code : Option JsVal := none
  kind : ErrorKind := ErrorKind.external
  sarifStringifiedResults : Option String := none
  jsonStringifiedResults : Option String := none
  deriving DecidableEq

/-- Modelled from the spec: `NoSupportedSastFiles` lives in the repository's
shared errors module, which is not under `src/`. The spec describes it as the
"no supported sast files" / unsupported-project classification; it is an
`Error` instance with no service-client fields. -/
def NoSupportedSastFiles : JsErr :=
  { isErrorInstance := true
    kind := ErrorKind.noSupportedSastFiles
    message := "no supported sast files" }

/-- Modelled from the spec: `FailedToRunTestError` lives in the repository's
shared errors module, which is not under `src/`. The spec describes it as the
"failed to run" / validation-style classification carrying a user message and
an optional error code; it is an `Error` instance with no service-client
fields. -/
def FailedToRunTestError (userMessage : String) (errorCode : Option JsVal) : JsErr :=
  { isErrorInstance := true
    kind := ErrorKind.failedToRunTest
    message := userMessage
    code := errorCode }

/-- Modelled from the spec: `AuthFailedError` lives in the repository's shared
errors module, which is not under `src/`. The spec describes it as the
authentication-failure classification for a 401 response, distinct from the
validation classification. -/
def AuthFailedError : JsErr :=
  { isErrorInstance := true
    kind := ErrorKind.authFailed
    message := "Authentication failed. Please check the API token."
    code := some (JsVal.num 401) }

/-- Modelled from the spec: `ValidationError` lives in the repository's shared
errors module, which is not under `src/`. The spec describes it as the generic
validation-failure classification carrying the service's reported message. -/
def ValidationError (userMessage : String) : JsErr :=
  { isErrorInstance := true
    kind := ErrorKind.validation
    message := userMessage }

/-- A runtime `TypeError`, as thrown by a property access on `undefined`. -/
def jsTypeError (msg : String) : JsErr :=
  { isErrorInstance := true
    kind := ErrorKind.typeError
    message := msg }

/-- Lines 140-146: `error.hasOwnProperty('statusCode') &&
error.hasOwnProperty('statusText') && error.hasOwnProperty('apiName')`. -/
def isCodeClientError (error : JsErr) : Bool :=
  error.statusCode.isSome && error.statusText.isSome && error.apiName.isSome

/-- Lines 148-155: `error.statusCode === 401 || error.statusCode === 403 ||
error.code === 403 || error.code === 401`. The `===` comparison is strict, so
only the number values 401 and 403 match. -/
def isUnauthorizedError (error : JsErr) : Bool :=
  error.statusCode == some (JsVal.num 401) ||
  error.statusCode == some (JsVal.num 403) ||
  error.code == some (JsVal.num 403) ||
  error.code == some (JsVal.num 401)

/-- Line 127: `new Error(error)` for a caught value that matched no other
branch. The `Error` constructor stringifies its argument; for the plain
objects this branch receives, `String(error)` is `"[object Object]"`. -/
def jsNewErrorOf (_error : JsErr) : JsErr :=
  { isErrorInstance := true
    kind := ErrorKind.plain
    message := "[object Object]" }

/-- Lines 112-135: the catch block of `test`. Applies, in order: the
service-client shape test, `instanceof Error`, the unauthorized shape test,
and the opaque wrap; the debug log line carries no semantic weight and is
omitted. -/
def classifyError (error : JsErr) : JsErr :=
  if isCodeClientError error then
    FailedToRunTestError
      ((if isUnauthorizedError error then "Unauthorized: " else "") ++
        "Failed to run \x27code test\x27")
      error.statusCode
  else if error.isErrorInstance then
    error
  else if isUnauthorizedError error then
    FailedToRunTestError error.message error.code
  else
    jsNewErrorOf error

/-- A SARIF result message. `markdown := none` means the field is absent
(deleted or never set). -/
structure Message where
  text : String := ""
  markdown : Option String := none
  deriving DecidableEq

/-- One SARIF result (a finding). -/
structure Finding where
  message : Message := {}
  deriving DecidableEq

/-- One SARIF run; `results := none` models an absent `results` field. -/
structure Run where
  results : Option (List Finding) := none
  deriving DecidableEq

/-- The analysis outcome (a SARIF `Log`); `runs := none` models an absent
`runs` field. -/
structure ResultLog where
  runs : Option (List Run) := none
  deriving DecidableEq

/-- JSON string quoting (escaping of special characters is immaterial to the
properties proved here and is omitted). -/
def jsonQuote (s : String) : String := "\"" ++ s ++ "\""

/-- Serialization of a message object: `JSON.stringify` omits fields that
are absent (deleted or `undefined`). -/
def serializeMessage (m : Message) : String :=
  "\x7b\"text\":" ++ jsonQuote m.text ++
    (match m.markdown with
      | none => ""
      | some md => ",\"markdown\":" ++ jsonQuote md) ++ "\x7d"

def serializeFinding (f : Finding) : String :=
  "\x7b\"message\":" ++ serializeMessage f.message ++ "\x7d"

def serializeRun (r : Run) : String :=
  "\x7b" ++
    (match r.results with
      | none => ""
      | some fs => "\"results\":[" ++
          String.intercalate "," (fs.map serializeFinding) ++ "]") ++ "\x7d"

/-- Modelled from the spec: `jsonStringifyLargeObject` (module `../../json`)
is not under `src/`; the spec treats it as JSON serialization of the result
set, so it is modelled as `JSON.stringify` on the embedded `ResultLog`,
omitting absent optional fields. -/
def serializeLog (log : ResultLog) : String :=
  "\x7b" ++
    (match log.runs with
      | none => ""
      | some rs => "\"runs\":[" ++
          String.intercalate "," (rs.map serializeRun) ++ "]") ++ "\x7d"

/-- Line 47: `sarifTypedResult!.runs?.[0].results?.length || 0`. When `runs`
is absent the optional chain short-circuits to `undefined` and `|| 0` yields
0. When `runs` is present but empty, `runs?.[0]` is `undefined` and the
following plain `.results` access throws a `TypeError` (there is no `?.`
after `[0]`). Otherwise the count is the length of the first run's
`results`, defaulting to 0 when that field is absent. -/
def numOfIssues (log : ResultLog) : Except JsErr Nat :=
  match log.runs with
  | none => Except.ok 0
  | some [] =>
      Except.error (jsTypeError "Cannot read property \x27results\x27 of undefined")
  | some (r :: _) =>
      Except.ok (match r.results with
        | none => 0
        | some fs => fs.length)

/-- Lines 88-92: `sarifTypedResult.runs?.[0].results?.forEach(({ message })
=> delete message.markdown)` — removes the markdown field from every finding
of the first run, in place. The fall-through branch (absent or empty `runs`)
is unreachable at the call site, which is guarded by a positive issue count
(a positive count requires a first run). -/
def stripMarkdown (log : ResultLog) : ResultLog :=
  match log.runs with
  | some (r :: rest) =>
      { log with
        runs := some
          ({ r with
             results := r.results.map
               (fun fs => fs.map
                 (fun f => { f with message := { f.message with markdown := none } })) }
            :: rest) }
  | _ => log

/-- The options bag consumed by `test`; field names map the kebab-case CLI
option keys (`project-id`, `project-name`, `target-reference`, `no-markdown`,
`sarif-file-output`, `json-file-output`). `none` models an absent option. -/
structure Options where
  report : Bool := false
  projectId : Option String := none
  projectName : Option String := none
  targetRef : Option String := none
  org : Option String := none
  noMarkdown : Bool := false
  sarif : Bool := false
  json : Bool := false
  sarifFileOutput : Bool := false
  jsonFileOutput : Bool := false
  deriving DecidableEq

/-- The slice of the resolved SAST settings that `test` reads. -/
structure SastSettings where
  org : Option String := none
  deriving DecidableEq

/-- The argument record passed to `uploadCodeReport` (lines 72-78); `org`
is `newOrg ?? null`, with `none` standing for both `undefined` and `null`. -/
structure UploadArgs where
  org : Option String
  projectId : Option String
  projectName : Option String
  targetRef : Option String
  results : ResultLog
  deriving DecidableEq

/-- The success payload of `test`: `{ readableResult, sarifResult? }`. -/
structure Success where
  readableResult : String
  sarifResult : Option String := none
  deriving DecidableEq

/-- JavaScript falsiness of an optional string: `undefined` and the empty
string are falsy. -/
def jsFalsyStr (o : Option String) : Bool :=
  match o with
  | none => true
  | some s => s == ""

/-- Line 65, right operand: `projectName?.trim().length === 0`. When the
name is absent the optional chain yields `undefined`, and `undefined === 0`
is false. -/
def jsTrimBlank (o : Option String) : Bool :=
  match o with
  | none => false
  | some s => s.trim == ""

/-- JavaScript truthiness of a possibly-undefined string, as used by the
`sarifResult ? ... : ...` conditional on line 111. -/
def jsTruthyOpt (o : Option String) : Bool :=
  match o with
  | none => false
  | some s => s != ""

/-- Lines 49-52: `let newOrg = options.org; if (!newOrg && sastSettings.org)
newOrg = sastSettings.org;` — both truthiness tests see the empty string as
absent. -/
def resolveOrg (optionsOrg settingsOrg : Option String) : Option String :=
  if jsFalsyStr optionsOrg && !jsFalsyStr settingsOrg then settingsOrg
  else optionsOrg

/-- Lines 157-171: `throwIssuesError` builds `new Error(readableResult)`,
sets `code = 'VULNS'`, and attaches the serialized payloads exactly when
they are defined. -/
def issuesError (readableResult : String)
    (sarifResult jsonResult : Option String) : JsErr :=
  { isErrorInstance := true
    kind := ErrorKind.plain
    message := readableResult
    code := some (JsVal.str "VULNS")
    sarifStringifiedResults := sarifResult
    jsonStringifiedResults := jsonResult }

/-- Lines 99-111: the mode-independent tail of `test` — optional file-output
serializations of the (possibly markdown-stripped) result set, issue
escalation, and the success payload. `called` records the upload request, if
one was made, for the caller of the embedding to observe. -/
def finishTest (options : Options) (finalLog : ResultLog) (issueCount : Nat)
    (readableResult : String) (called : Option UploadArgs) :
    Except JsErr Success × Option UploadArgs :=
  let sarifResult : Option String :=
    if options.sarifFileOutput then some (serializeLog finalLog) else none
  let jsonResult : Option String :=
    if options.jsonFileOutput then some (serializeLog finalLog) else none
  if issueCount > 0 then
    (Except.error (classifyError (issuesError readableResult sarifResult jsonResult)),
      called)
  else
    (Except.ok
      (if jsTruthyOpt sarifResult then
        { readableResult := readableResult, sarifResult := sarifResult }
      else
        { readableResult := readableResult }),
      called)

/-- Lines 28-137: the `test` entry point of the plugin, with the external
collaborators as parameters: `analysisResult` is what
`getCodeAnalysisAndParseResults` returned (`none` is `null`),
`display org log` is `getCodeDisplayedOutput(log, getMeta({...options, org},
path), getPrefix(path))`, and `upload` is `uploadCodeReport`. Every value
thrown inside the try block passes through `classifyError` (the catch
block); the second component records the upload request, if any. The
analytics and debug-log calls have no semantic effect and are omitted. -/
def testCore (options : Options) (sastSettings : SastSettings)
    (analysisResult : Option ResultLog)
    (display : Option String → ResultLog → String)
    (upload : UploadArgs → Except JsErr String) :
    Except JsErr Success × Option UploadArgs :=
  match analysisResult with
  | none => (Except.error (classifyError NoSupportedSastFiles), none)
  | some sarifTypedResult =>
    match numOfIssues sarifTypedResult with
    | Except.error e => (Except.error (classifyError e), none)
    | Except.ok issueCount =>
      let newOrg := resolveOrg options.org sastSettings.org
      if options.report then
        if jsFalsyStr options.projectId &&
            (jsFalsyStr options.projectName || jsTrimBlank options.projectName) then
          (Except.error
            (classifyError (FailedToRunTestError "No project ID or name specified" none)),
            none)
        else
          let args : UploadArgs :=
            { org := newOrg
              projectId := options.projectId
              projectName := options.projectName
              targetRef := options.targetRef
              results := sarifTypedResult }
          match upload args with
          | Except.error e => (Except.error (classifyError e), some args)
          | Except.ok readableResult =>
              finishTest options sarifTypedResult issueCount readableResult (some args)
      else
        let displayed := display newOrg sarifTypedResult
        let finalLog :=
          if issueCount > 0 && options.noMarkdown then stripMarkdown sarifTypedResult
          else sarifTypedResult
        let readableResult :=
          if options.sarif || options.json then serializeLog finalLog else displayed
        finishTest options finalLog issueCount readableResult none

/-- The response `makeRequest` produced for the upload POST, seen through the
fields `uploadResults` reads: the status code, the service's reported error
(`res.body.error`, `none` when absent), and the success body fields. -/
structure UploadResponse where
  statusCode : Int
  bodyError : Option String := none
  projectPublicId : String := ""
  snapshotPublicId : String := ""
  projectUrl : String := ""
  deriving DecidableEq

/-- The success value of `uploadResults`. -/
structure UploadOutcome where
  projectPublicId : String
  snapshotPublicId : String
  projectUrl : String
  deriving DecidableEq

/-- report.ts lines 33-69: `uploadResults` — the transport (`makeRequest`)
is external, so the embedding takes the response it produced. A 401 status
throws `AuthFailedError()`; any other status outside [200, 299] throws
`ValidationError(res.body.error ?? 'An error occurred, please contact Snyk
support')`; otherwise the body fields are extracted. -/
def uploadResults (_args : UploadArgs) (resp : UploadResponse) :
    Except JsErr UploadOutcome :=
  if resp.statusCode = 401 then
    Except.error AuthFailedError
  else if resp.statusCode < 200 || resp.statusCode > 299 then
    Except.error
      (ValidationError
        (resp.bodyError.getD "An error occurred, please contact Snyk support"))
  else
    Except.ok
      { projectPublicId := resp.projectPublicId
        snapshotPublicId := resp.snapshotPublicId
        projectUrl := resp.projectUrl }

/-- The spec's issue count: the length of the findings sequence of the first
run, zero when any level is absent (total, used to state claims). -/
def firstRunFindings (log : ResultLog) : Nat :=
  match log.runs with
  | some (r :: _) =>
      (match r.results with
        | none => 0
        | some fs => fs.length)
  | _ => 0

/-- The total number of findings across all runs (used to state claims about
"zero total findings"). -/
def totalFindings (log : ResultLog) : Nat :=
  ((log.runs.getD []).map (fun r => (r.results.getD []).length)).sum

/-- Every finding of the first run lacks the markdown field. -/
def firstRunAllStripped (log : ResultLog) : Bool :=
  match log.runs with
  | some (r :: _) => (r.results.getD []).all (fun f => f.message.markdown == none)
  | _ => true

/-- A concrete output formatter for closed evaluations. -/
def cxDisplay : Option String → ResultLog → String :=
  fun _ _ => "display output"

/-- A concrete output formatter that reflects the result set it is given,
for closed evaluations that must observe what the formatter saw. -/
def cxDisplaySerialize : Option String → ResultLog → String :=
  fun _ log => serializeLog log

/-- A concrete always-successful uploader for closed evaluations. -/
def cxUpload : UploadArgs → Except JsErr String :=
  fun _ => Except.ok "uploaded"

/-- A concrete always-failing uploader for closed evaluations. -/
def cxUploadAuthFail : UploadArgs → Except JsErr String :=
  fun _ => Except.error AuthFailedError

/-- A one-run, one-finding result log. -/
def oneFindingLog : ResultLog := { runs := some [{ results := some [{}] }] }

/-- A one-run, one-finding result log whose finding carries a markdown
explanation. -/
def mdLog : ResultLog :=
  { runs := some [{ results := some [{ message := { text := "t", markdown := some "MD" } }] }] }

/-- A caught object with the full service-client shape, a 500 status code,
and a 401 `code` field. -/
def clientErr500 : JsErr :=
  { statusCode := some (JsVal.num 500)
    statusText := some (JsVal.str "Internal Server Error")
    apiName := some (JsVal.str "code")
    code := some (JsVal.num 401)
    message := "m" }

/-- A caught object with the full service-client shape and a 401 status. -/
def clientErr401 : JsErr :=
  { statusCode := some (JsVal.num 401)
    statusText := some (JsVal.str "Unauthorized")
    apiName := some (JsVal.str "code") }

/-- Options for the C7 counterexample: upload mode, valid project id,
caller-supplied empty-string org. -/
def emptyOrgOpts : Options := { report := true, projectId := some "p", org := some "" }

/-- Settings for the C7 counterexample. -/
def orgSettings : SastSettings := { org := some "the-settings-org" }

/-- Options for the C7 witness: upload mode, valid project id, caller org. -/
def callerOrgOpts : Options :=
  { report := true, projectId := some "pid", org := some "caller-org" }

/-- An upload-args record used to exercise `uploadResults`. -/
def someUploadArgs : UploadArgs :=
  { org := none, projectId := some "p", projectName := none, targetRef := none,
    results := {} }

/- ------------------------------------------------------------------ -/
/- Helper lemmas                                                       -/
/- ------------------------------------------------------------------ -/

theorem classify_issuesError (r : String) (s j : Option String) :
    classifyError (issuesError r s j) = issuesError r s j := rfl

theorem classify_failedToRunTest (m : String) (c : Option JsVal) :
    classifyError (FailedToRunTestError m c) = FailedToRunTestError m c := rfl

theorem serializeLog_ne_empty (log : ResultLog) : serializeLog log ≠ "" := by
  intro h
  have h2 := congrArg String.data h
  unfold serializeLog at h2
  simp at h2

theorem numOfIssues_eq_firstRun (log : ResultLog) (h : log.runs ≠ some []) :
    numOfIssues log = Except.ok (firstRunFindings log) := by
  obtain ⟨runs⟩ := log
  cases runs with
  | none => rfl
  | some l =>
    cases l with
    | nil => exact absurd rfl h
    | cons r rest => rfl

theorem firstRunAllStripped_stripMarkdown (log : ResultLog) :
    firstRunAllStripped (stripMarkdown log) = true := by
  obtain ⟨runs⟩ := log
  cases runs with
  | none => rfl
  | some l =>
    cases l with
    | nil => rfl
    | cons r rest =>
      cases hres : r.results with
      | none => simp [stripMarkdown, firstRunAllStripped, hres]
      | some fs => simp [stripMarkdown, firstRunAllStripped, hres, List.all_eq_true]

theorem isUnauthorizedError_iff (e : JsErr) :
    isUnauthorizedError e = true ↔
      (e.statusCode = some (JsVal.num 401) ∨ e.statusCode = some (JsVal.num 403) ∨
        e.code = some (JsVal.num 403) ∨ e.code = some (JsVal.num 401)) := by
  simp [isUnauthorizedError, or_assoc]

theorem isCodeClientError_iff (e : JsErr) :
    isCodeClientError e = true ↔
      (e.statusCode.isSome = true ∧ e.statusText.isSome = true ∧ e.apiName.isSome = true) := by
  simp [isCodeClientError, and_assoc]

theorem finishTest_snd (options : Options) (finalLog : ResultLog) (n : Nat)
    (readable : String) (called : Option UploadArgs) :
    (finishTest options finalLog n readable called).2 = called := by
  simp only [finishTest]
  split <;> rfl

theorem finishTest_pos (options : Options) (finalLog : ResultLog) (n : Nat)
    (readable : String) (called : Option UploadArgs) (h : 0 < n) :
    (finishTest options finalLog n readable called).1 =
      Except.error (issuesError readable
        (if options.sarifFileOutput then some (serializeLog finalLog) else none)
        (if options.jsonFileOutput then some (serializeLog finalLog) else none)) := by
  simp only [finishTest]
  rw [if_pos h]
  simp [classify_issuesError]

theorem finishTest_zero (options : Options) (finalLog : ResultLog)
    (readable : String) (called : Option UploadArgs) :
    (finishTest options finalLog 0 readable called).1 =
      Except.ok (if options.sarifFileOutput then
          { readableResult := readable, sarifResult := some (serializeLog finalLog) }
        else { readableResult := readable }) := by
  simp only [finishTest]
  rw [if_neg (by omega)]
  by_cases hs : options.sarifFileOutput
  · simp [hs, jsTruthyOpt, serializeLog_ne_empty]
  · simp [hs, jsTruthyOpt]

theorem testCore_local (options : Options) (settings : SastSettings) (log : ResultLog)
    (display : Option String → ResultLog → String)
    (upload : UploadArgs → Except JsErr String)
    (hmode : options.report = false) (hruns : log.runs ≠ some []) :
    testCore options settings (some log) display upload =
      finishTest options
        (if firstRunFindings log > 0 && options.noMarkdown then stripMarkdown log else log)
        (firstRunFindings log)
        (if options.sarif || options.json then
          serializeLog
            (if firstRunFindings log > 0 && options.noMarkdown then stripMarkdown log else log)
        else display (resolveOrg options.org settings.org) log)
        none := by
  have hnum := numOfIssues_eq_firstRun log hruns
  simp [testCore, hnum, hmode]

/- ------------------------------------------------------------------ -/
/- C3                                                                  -/
/- ------------------------------------------------------------------ -/

/-- C3: the issue count (line 47) defaults to zero when `runs` is absent or
when the first run's `results` is absent, and otherwise is the length of the
first run's findings — but the computation is NOT total: when `runs` is
present and empty, `runs?.[0]` is `undefined` and the unguarded `.results`
access throws a `TypeError`, which `test` then rethrows (an `Error` instance
passes the classifier unchanged) instead of treating the absent first run as
zero issues. -/
theorem issue_count_empty_runs_crash :
    numOfIssues { runs := none } = Except.ok 0 ∧
    numOfIssues { runs := some [{ results := none }] } = Except.ok 0 ∧
    numOfIssues { runs := some [{ results := some [{}, {}] }] } = Except.ok 2 ∧
    numOfIssues { runs := some [] } =
      Except.error (jsTypeError "Cannot read property \x27results\x27 of undefined") ∧
    (testCore {} {} (some { runs := some [] }) cxDisplay cxUpload).1 =
      Except.error (jsTypeError "Cannot read property \x27results\x27 of undefined") :=
  ⟨rfl, rfl, rfl, rfl, rfl⟩

/- ------------------------------------------------------------------ -/
/- C8                                                                  -/
/- ------------------------------------------------------------------ -/

/-- C8: when the analysis requester returns no result at all (`null`), `test`
fails with the no-supported-sast-files classification regardless of all
options and collaborators, and no upload request is ever issued. -/
theorem null_analysis_unsupported (options : Options) (settings : SastSettings)
    (display : Option String → ResultLog → String)
    (upload : UploadArgs → Except JsErr String) :
    testCore options settings none display upload =
      (Except.error NoSupportedSastFiles, none) ∧
    NoSupportedSastFiles.kind = ErrorKind.noSupportedSastFiles ∧
    NoSupportedSastFiles.message = "no supported sast files" :=
  ⟨rfl, rfl, rfl⟩

/- ------------------------------------------------------------------ -/
/- C9                                                                  -/
/- ------------------------------------------------------------------ -/

/-- C9: the issues-found error built by `throwIssuesError` is an `Error`
instance without the service-client field shape, so the catch block's
classifier rethrows it unchanged, with its `VULNS` code and its embedded
serialized payloads intact; a concrete end-to-end run shows the caller
receiving exactly that object. -/
theorem vulns_error_passes_classifier (r : String) (s j : Option String) :
    isCodeClientError (issuesError r s j) = false ∧
    (issuesError r s j).isErrorInstance = true ∧
    classifyError (issuesError r s j) = issuesError r s j ∧
    (issuesError r s j).code = some (JsVal.str "VULNS") ∧
    (issuesError r s j).message = r ∧
    (issuesError r s j).sarifStringifiedResults = s ∧
    (issuesError r s j).jsonStringifiedResults = j ∧
    (testCore { sarifFileOutput := true, jsonFileOutput := true } {}
        (some oneFindingLog) cxDisplay cxUpload).1 =
      Except.error (issuesError "display output"
        (some (serializeLog oneFindingLog)) (some (serializeLog oneFindingLog))) :=
  ⟨rfl, rfl, rfl, rfl, rfl, rfl, rfl, rfl⟩

/- ------------------------------------------------------------------ -/
/- C5                                                                  -/
/- ------------------------------------------------------------------ -/

/-- C5 counterexample: a caught object with the service-client shape whose
status code is 500 — not 401 or 403 — still gets the "Unauthorized: " prefix,
because its `code` field is 401; the claim's "exactly when the status code is
401 or 403" is false on this input. -/
theorem unauthorized_via_code_field :
    clientErr500.statusCode = some (JsVal.num 500) ∧
    clientErr500.statusCode ≠ some (JsVal.num 401) ∧
    clientErr500.statusCode ≠ some (JsVal.num 403) ∧
    classifyError clientErr500 =
      FailedToRunTestError "Unauthorized: Failed to run \x27code test\x27"
        (some (JsVal.num 500)) := by
  refine ⟨rfl, by decide, by decide, rfl⟩

/-- C5 (amended): the classifier applies its tests in priority order — the
service-client shape (status code, status text and API name all present) is
classified as a "failed to run" error whose message gets the "Unauthorized: "
prefix exactly when the status code or the `code` field is 401 or 403; an
`Error` instance without that shape is rethrown unchanged; a remaining object
whose status or error code is 401 or 403 becomes a "failed to run" error with
its own message and code; anything else is wrapped in a bare `Error`; no
branch swallows the error. -/
theorem error_classifier_policy (e : JsErr) :
    ((e.statusCode.isSome = true ∧ e.statusText.isSome = true ∧ e.apiName.isSome = true) →
      classifyError e =
        FailedToRunTestError
          ((if e.statusCode = some (JsVal.num 401) ∨ e.statusCode = some (JsVal.num 403) ∨
              e.code = some (JsVal.num 403) ∨ e.code = some (JsVal.num 401) then
              "Unauthorized: "
            else "") ++ "Failed to run \x27code test\x27")
          e.statusCode) ∧
    (¬(e.statusCode.isSome = true ∧ e.statusText.isSome = true ∧ e.apiName.isSome = true) →
      e.isErrorInstance = true → classifyError e = e) ∧
    (¬(e.statusCode.isSome = true ∧ e.statusText.isSome = true ∧ e.apiName.isSome = true) →
      e.isErrorInstance = false →
      (e.statusCode = some (JsVal.num 401) ∨ e.statusCode = some (JsVal.num 403) ∨
        e.code = some (JsVal.num 403) ∨ e.code = some (JsVal.num 401)) →
      classifyError e = FailedToRunTestError e.message e.code) ∧
    (¬(e.statusCode.isSome = true ∧ e.statusText.isSome = true ∧ e.apiName.isSome = true) →
      e.isErrorInstance = false →
      ¬(e.statusCode = some (JsVal.num 401) ∨ e.statusCode = some (JsVal.num 403) ∨
        e.code = some (JsVal.num 403) ∨ e.code = some (JsVal.num 401)) →
      classifyError e = jsNewErrorOf e) := by
  refine ⟨?_, ?_, ?_, ?_⟩
  · intro hshape
    have hc : isCodeClientError e = true := (isCodeClientError_iff e).mpr hshape
    by_cases hu : (e.statusCode = some (JsVal.num 401) ∨ e.statusCode = some (JsVal.num 403) ∨
        e.code = some (JsVal.num 403) ∨ e.code = some (JsVal.num 401))
    · have hu' : isUnauthorizedError e = true := (isUnauthorizedError_iff e).mpr hu
      simp [classifyError, hc, hu', hu]
    · have hu' : isUnauthorizedError e = false := by
        cases h : isUnauthorizedError e with
        | false => rfl
        | true => exact absurd ((isUnauthorizedError_iff e).mp h) hu
      simp [classifyError, hc, hu', hu]
  · intro hshape hinst
    have hc : isCodeClientError e = false := by
      cases h : isCodeClientError e with
      | false => rfl
      | true => exact absurd ((isCodeClientError_iff e).mp h) hshape
    simp [classifyError, hc, hinst]
  · intro hshape hinst hu
    have hc : isCodeClientError e = false := by
      cases h : isCodeClientError e with
      | false => rfl
      | true => exact absurd ((isCodeClientError_iff e).mp h) hshape
    have hu' : isUnauthorizedError e = true := (isUnauthorizedError_iff e).mpr hu
    simp [classifyError, hc, hinst, hu']
  · intro hshape hinst hu
    have hc : isCodeClientError e = false := by
      cases h : isCodeClientError e with
      | false => rfl
      | true => exact absurd ((isCodeClientError_iff e).mp h) hshape
    have hu' : isUnauthorizedError e = false := by
      cases h : isUnauthorizedError e with
      | false => rfl
      | true => exact absurd ((isUnauthorizedError_iff e).mp h) hu
    simp [classifyError, hc, hinst, hu']

/-- C5 witness: the classifier theorem applied to a concrete service-client
object with a 401 status. -/
theorem error_classifier_policy_witness :
    classifyError clientErr401 =
      FailedToRunTestError "Unauthorized: Failed to run \x27code test\x27"
        (some (JsVal.num 401)) := by
  have h := (error_classifier_policy clientErr401).1 ⟨rfl, rfl, rfl⟩
  exact h.trans (by decide)

/- ------------------------------------------------------------------ -/
/- C6                                                                  -/
/- ------------------------------------------------------------------ -/

/-- C6: for every upload response, a 401 status yields the authentication
classification (distinct from the validation classification), and any other
status outside [200, 299] yields a validation failure whose message is the
service's reported error when present and the generic fallback otherwise. -/
theorem upload_status_classification (args : UploadArgs) (resp : UploadResponse) :
    (resp.statusCode = 401 →
      uploadResults args resp = Except.error AuthFailedError ∧
      AuthFailedError.kind = ErrorKind.authFailed ∧
      AuthFailedError.kind ≠ ErrorKind.validation) ∧
    (resp.statusCode ≠ 401 → (resp.statusCode < 200 ∨ 299 < resp.statusCode) →
      uploadResults args resp =
        Except.error (ValidationError
          (resp.bodyError.getD "An error occurred, please contact Snyk support")) ∧
      (ValidationError
          (resp.bodyError.getD "An error occurred, please contact Snyk support")).kind =
        ErrorKind.validation) := by
  constructor
  · intro h401
    refine ⟨?_, rfl, by decide⟩
    simp [uploadResults, h401]
  · intro h401 hout
    refine ⟨?_, rfl⟩
    have hb : (resp.statusCode < 200 || resp.statusCode > 299) = true := by
      rcases hout with h | h <;> simp [h]
    simp [uploadResults, h401, hb]

/-- C6 witness: the classification theorem applied to a concrete 401 response
and to a concrete 500 response carrying a service error message. -/
theorem upload_status_classification_witness :
    uploadResults someUploadArgs { statusCode := 401 } = Except.error AuthFailedError ∧
    uploadResults someUploadArgs { statusCode := 500, bodyError := some "boom" } =
      Except.error (ValidationError "boom") := by
  constructor
  · exact ((upload_status_classification someUploadArgs { statusCode := 401 }).1 rfl).1
  · exact ((upload_status_classification someUploadArgs
      { statusCode := 500, bodyError := some "boom" }).2 (by decide) (Or.inr (by decide))).1

/- ------------------------------------------------------------------ -/
/- C1                                                                  -/
/- ------------------------------------------------------------------ -/

/-- C1 counterexample: a result log with zero total findings on which `test`
does not resolve successfully — in upload mode with no project identifier the
run fails with the validation error, so "for any ResultLog with zero total
findings test() resolves successfully" is false as stated. -/
theorem zero_findings_still_fails :
    totalFindings { runs := none } = 0 ∧
    (testCore { report := true } {} (some { runs := none }) cxDisplay cxUpload).1 =
      Except.error (FailedToRunTestError "No project ID or name specified" none) :=
  ⟨rfl, rfl⟩

/-- C1 (amended): in local mode, for any result log whose `runs` sequence is
absent or nonempty, `test` throws an error with code `VULNS` exactly when the
first run's findings count is positive: with zero findings it resolves
successfully (so no `VULNS` error), and with a positive count it throws an
error whose code is `VULNS` and whose message is the local-mode rendering —
the displayed output, or the serialized (markdown-stripped when requested)
result set when `sarif`/`json` is set. -/
theorem test_vulns_iff_issues (options : Options) (settings : SastSettings)
    (log : ResultLog) (display : Option String → ResultLog → String)
    (upload : UploadArgs → Except JsErr String)
    (hmode : options.report = false) (hruns : log.runs ≠ some []) :
    (firstRunFindings log = 0 →
      ∃ s, (testCore options settings (some log) display upload).1 = Except.ok s) ∧
    (0 < firstRunFindings log →
      ∃ e, (testCore options settings (some log) display upload).1 = Except.error e ∧
        e.code = some (JsVal.str "VULNS") ∧
        e.message = (if options.sarif || options.json then
            serializeLog (if options.noMarkdown then stripMarkdown log else log)
          else display (resolveOrg options.org settings.org) log)) := by
  rw [testCore_local options settings log display upload hmode hruns]
  constructor
  · intro h0
    rw [h0]
    simp only [gt_iff_lt, lt_self_iff_false, decide_False, Bool.false_and, if_false]
    exact ⟨_, finishTest_zero options log _ none⟩
  · intro hpos
    have hgt : decide (firstRunFindings log > 0) = true := decide_eq_true hpos
    simp only [hgt, Bool.true_and]
    refine ⟨_, finishTest_pos options _ _ _ none hpos, rfl, rfl⟩

/-- C1 witness: a one-finding log in local mode makes `test` throw the
`VULNS` error carrying the displayed output as its message. -/
theorem test_vulns_iff_issues_witness :
    ∃ e, (testCore {} {} (some oneFindingLog) cxDisplay cxUpload).1 = Except.error e ∧
      e.code = some (JsVal.str "VULNS") ∧ e.message = "display output" := by
  have h := (test_vulns_iff_issues {} {} oneFindingLog cxDisplay cxUpload rfl
    (by decide)).2 (by decide)
  simpa [cxDisplay] using h

/- ------------------------------------------------------------------ -/
/- C2                                                                  -/
/- ------------------------------------------------------------------ -/

/-- C2 counterexample: with `no-markdown` set, issues present, and a
formatter that reflects the result set it is handed, the readable result
embedded in the thrown error is the serialization of the un-stripped log —
the findings it was rendered from still carry their markdown field (and that
rendering differs from the stripped rendering), so "removed ... before
rendering, so that every finding's message lacks a markdown field in ... the
readable output" is false as stated. -/
theorem readable_rendered_before_strip :
    firstRunAllStripped mdLog = false ∧
    (testCore { noMarkdown := true } {} (some mdLog) cxDisplaySerialize cxUpload).1 =
      Except.error (issuesError (serializeLog mdLog) none none) ∧
    serializeLog mdLog ≠ serializeLog (stripMarkdown mdLog) :=
  ⟨rfl, rfl, by decide⟩

/-- C2 (amended): in local mode, when issues exist and `no-markdown` is set,
the markdown field is removed from every finding's message in the first run
after the human-readable rendering but before the sarif/json serializations:
the serialized outputs (the `sarif`/`json` readable replacement and both
file outputs) are produced from the stripped result set, in which every
finding's message lacks a markdown field, while the plain readable output is
rendered from the pre-strip result set. -/
theorem no_markdown_strip_timing (options : Options) (settings : SastSettings)
    (log : ResultLog) (display : Option String → ResultLog → String)
    (upload : UploadArgs → Except JsErr String)
    (hmode : options.report = false) (hmd : options.noMarkdown = true)
    (hpos : 0 < firstRunFindings log) :
    firstRunAllStripped (stripMarkdown log) = true ∧
    ∃ e, (testCore options settings (some log) display upload).1 = Except.error e ∧
      e.sarifStringifiedResults =
        (if options.sarifFileOutput then some (serializeLog (stripMarkdown log)) else none) ∧
      e.jsonStringifiedResults =
        (if options.jsonFileOutput then some (serializeLog (stripMarkdown log)) else none) ∧
      e.message = (if options.sarif || options.json then serializeLog (stripMarkdown log)
        else display (resolveOrg options.org settings.org) log) := by
  have hruns : log.runs ≠ some [] := by
    intro h
    simp [firstRunFindings, h] at hpos
  refine ⟨firstRunAllStripped_stripMarkdown log, ?_⟩
  rw [testCore_local options settings log display upload hmode hruns]
  have hgt : decide (firstRunFindings log > 0) = true := decide_eq_true hpos
  simp only [hgt, hmd, Bool.true_and, if_true]
  exact ⟨_, finishTest_pos options _ _ _ none hpos, rfl, rfl, rfl⟩

/-- C2 witness: the strip-timing theorem applied to a concrete one-finding
log with a markdown payload, `no-markdown` and `sarif-file-output` set. -/
theorem no_markdown_strip_timing_witness :
    firstRunAllStripped (stripMarkdown mdLog) = true ∧
    ∃ e, (testCore { noMarkdown := true, sarifFileOutput := true } {}
        (some mdLog) cxDisplay cxUpload).1 = Except.error e ∧
      e.sarifStringifiedResults = some (serializeLog (stripMarkdown mdLog)) ∧
      e.jsonStringifiedResults = none ∧
      e.message = "display output" := by
  have h := no_markdown_strip_timing { noMarkdown := true, sarifFileOutput := true } {}
    mdLog cxDisplay cxUpload rfl rfl (by decide)
  refine ⟨h.1, ?_⟩
  obtain ⟨e, he, hs, hj, hm⟩ := h.2
  exact ⟨e, he, by simpa using hs, by simpa using hj, by simpa [cxDisplay] using hm⟩

/- ------------------------------------------------------------------ -/
/- C4                                                                  -/
/- ------------------------------------------------------------------ -/

/-- C4: in upload mode, when `project-id` is absent and `project-name` is
absent or blank after trimming, `test` never issues an upload request (its
outcome does not depend on the uploader at all), and whenever the issue-count
computation succeeds it fails with the validation error "No project ID or
name specified". -/
theorem upload_requires_project_identifier (options : Options) (settings : SastSettings)
    (log : ResultLog) (display : Option String → ResultLog → String)
    (upload upload2 : UploadArgs → Except JsErr String)
    (hrep : options.report = true) (hpid : options.projectId = none)
    (hname : options.projectName = none ∨ ∃ s, options.projectName = some s ∧ s.trim = "") :
    (testCore options settings (some log) display upload).2 = none ∧
    testCore options settings (some log) display upload =
      testCore options settings (some log) display upload2 ∧
    (∀ n, numOfIssues log = Except.ok n →
      (testCore options settings (some log) display upload).1 =
        Except.error (FailedToRunTestError "No project ID or name specified" none)) := by
  have hcond : (jsFalsyStr options.projectId &&
      (jsFalsyStr options.projectName || jsTrimBlank options.projectName)) = true := by
    rcases hname with h | ⟨s, hs, ht⟩
    · simp [jsFalsyStr, jsTrimBlank, hpid, h]
    · simp [jsFalsyStr, jsTrimBlank, hpid, hs, ht]
  have main : ∀ (u : UploadArgs → Except JsErr String) (n : Nat),
      numOfIssues log = Except.ok n →
      testCore options settings (some log) display u =
        (Except.error (FailedToRunTestError "No project ID or name specified" none), none) := by
    intro u n hn
    simp [testCore, hn, hrep, hcond, classify_failedToRunTest]
  cases hnum : numOfIssues log with
  | ok n =>
    refine ⟨?_, ?_, ?_⟩
    · rw [main upload n hnum]
    · rw [main upload n hnum, main upload2 n hnum]
    · intro m _
      rw [main upload n hnum]
  | error e =>
    refine ⟨?_, ?_, ?_⟩
    · simp [testCore, hnum]
    · simp [testCore, hnum]
    · intro m hm
      exact absurd hm (by simp)

/-- C4 witness: upload mode with no project identifiers at all never calls
the uploader, does not depend on it, and fails with the validation error. -/
theorem upload_requires_project_identifier_witness :
    (testCore { report := true } {} (some { runs := none }) cxDisplay cxUpload).2 = none ∧
    testCore { report := true } {} (some { runs := none }) cxDisplay cxUpload =
      testCore { report := true } {} (some { runs := none }) cxDisplay cxUploadAuthFail ∧
    (testCore { report := true } {} (some { runs := none }) cxDisplay cxUpload).1 =
      Except.error (FailedToRunTestError "No project ID or name specified" none) := by
  have h := upload_requires_project_identifier { report := true } {} { runs := none }
    cxDisplay cxUpload cxUploadAuthFail rfl rfl (Or.inl rfl)
  exact ⟨h.1, h.2.1, h.2.2 0 rfl⟩

/- ------------------------------------------------------------------ -/
/- C7                                                                  -/
/- ------------------------------------------------------------------ -/

/-- C7 counterexample: a caller-supplied empty-string org is falsy to the
backfill test on line 50, so the settings org — not the caller's org — is
sent with the upload request; "a caller-supplied org option always
overrides" is false as stated. -/
theorem empty_org_not_sent :
    emptyOrgOpts.org = some "" ∧
    (testCore emptyOrgOpts orgSettings (some { runs := none }) cxDisplay cxUpload).2 =
      some { org := some "the-settings-org", projectId := some "p", projectName := none,
             targetRef := none, results := { runs := none } } ∧
    (some "the-settings-org" : Option String) ≠ emptyOrgOpts.org :=
  ⟨rfl, rfl, by decide⟩

/-- C7 (amended): a caller-supplied non-empty org always wins in the resolved
organization; when the caller's org is absent or empty and the settings org
is non-empty, the settings org is backfilled; and in upload mode the upload
request is sent with exactly that resolved org (alongside the caller's
project identifiers and the result set). -/
theorem org_precedence (options : Options) (settings : SastSettings)
    (log : ResultLog) (display : Option String → ResultLog → String)
    (upload : UploadArgs → Except JsErr String)
    (hrep : options.report = true)
    (hpid : ∃ p, options.projectId = some p ∧ p ≠ "")
    (hruns : log.runs ≠ some []) :
    ((∃ o, options.org = some o ∧ o ≠ "") →
      resolveOrg options.org settings.org = options.org) ∧
    (jsFalsyStr options.org = true → jsFalsyStr settings.org = false →
      resolveOrg options.org settings.org = settings.org) ∧
    (testCore options settings (some log) display upload).2 =
      some { org := resolveOrg options.org settings.org, projectId := options.projectId,
             projectName := options.projectName, targetRef := options.targetRef,
             results := log } := by
  obtain ⟨p, hp, hpne⟩ := hpid
  have hcond : (jsFalsyStr options.projectId &&
      (jsFalsyStr options.projectName || jsTrimBlank options.projectName)) = false := by
    simp [jsFalsyStr, hp, hpne]
  have hnum := numOfIssues_eq_firstRun log hruns
  refine ⟨?_, ?_, ?_⟩
  · rintro ⟨o, ho, hone⟩
    simp [resolveOrg, jsFalsyStr, ho, hone]
  · intro hfo hso
    simp [resolveOrg, hfo, hso]
  · simp only [testCore, hnum, hrep, if_true, hcond, Bool.false_eq_true, if_false]
    cases upload { org := resolveOrg options.org settings.org, projectId := options.projectId, projectName := options.projectName, targetRef := options.targetRef, results := log } with
    | error e => rfl
    | ok s => exact finishTest_snd options log (firstRunFindings log) s _

/-- C7 witness: a non-empty caller org wins over a settings org and is the
org sent with the upload request. -/
theorem org_precedence_witness :
    resolveOrg callerOrgOpts.org orgSettings.org = some "caller-org" ∧
    (testCore callerOrgOpts orgSettings (some { runs := none }) cxDisplay cxUpload).2 =
      some { org := some "caller-org", projectId := some "pid", projectName := none,
             targetRef := none, results := { runs := none } } := by
  have h := org_precedence callerOrgOpts orgSettings { runs := none } cxDisplay cxUpload
    rfl ⟨"pid", rfl, by decide⟩ (by decide)
  have h1 := h.1 ⟨"caller-org", rfl, by decide⟩
  constructor
  · exact h1.trans (by decide)
  · rw [h.2.2, h1]
    decide

/- ------------------------------------------------------------------ -/
/- C10                                                                 -/
/- ------------------------------------------------------------------ -/

/-- C10: in local mode (non-crashing log shapes), the `json-file-output`
serialization appears only on the thrown issues error — when the issue count
is positive the thrown error carries it exactly when the option is set, and
when the issue count is zero the success payload consists of the readable
result plus a `sarifResult` field present exactly when `sarif-file-output`
was requested (the success shape has no json field at all). -/
theorem json_file_output_attachment (options : Options) (settings : SastSettings)
    (log : ResultLog) (display : Option String → ResultLog → String)
    (upload : UploadArgs → Except JsErr String)
    (hmode : options.report = false) (hruns : log.runs ≠ some []) :
    (0 < firstRunFindings log →
      ∃ e, (testCore options settings (some log) display upload).1 = Except.error e ∧
        e.jsonStringifiedResults = (if options.jsonFileOutput then
            some (serializeLog (if options.noMarkdown then stripMarkdown log else log))
          else none)) ∧
    (firstRunFindings log = 0 →
      ∃ s, (testCore options settings (some log) display upload).1 = Except.ok s ∧
        s.sarifResult.isSome = options.sarifFileOutput ∧
        s.readableResult = (if options.sarif || options.json then serializeLog log
          else display (resolveOrg options.org settings.org) log)) := by
  rw [testCore_local options settings log display upload hmode hruns]
  constructor
  · intro hpos
    have hgt : decide (firstRunFindings log > 0) = true := decide_eq_true hpos
    simp only [hgt, Bool.true_and]
    refine ⟨_, finishTest_pos options _ _ _ none hpos, ?_⟩
    by_cases hmd : options.noMarkdown <;> simp [hmd, issuesError]
  · intro h0
    rw [h0]
    simp only [gt_iff_lt, lt_self_iff_false, decide_False, Bool.false_and, if_false]
    refine ⟨_, finishTest_zero options log _ none, ?_, ?_⟩
    · by_cases hs : options.sarifFileOutput <;> simp [hs]
    · by_cases hs : options.sarifFileOutput <;> simp [hs]

/-- C10 witness: with both file outputs requested, a one-finding log puts the
json serialization on the thrown error, and a zero-finding log returns a
success payload with a `sarifResult` and no json field. -/
theorem json_file_output_attachment_witness :
    (∃ e, (testCore { sarifFileOutput := true, jsonFileOutput := true } {}
        (some oneFindingLog) cxDisplay cxUpload).1 = Except.error e ∧
      e.jsonStringifiedResults = some (serializeLog oneFindingLog)) ∧
    (∃ s, (testCore { sarifFileOutput := true, jsonFileOutput := true } {}
        (some { runs := none }) cxDisplay cxUpload).1 = Except.ok s ∧
      s.sarifResult.isSome = true ∧ s.readableResult = "display output") := by
  constructor
  · have h := (json_file_output_attachment { sarifFileOutput := true, jsonFileOutput := true }
      {} oneFindingLog cxDisplay cxUpload rfl (by decide)).1 (by decide)
    simpa using h
  · have h := (json_file_output_attachment { sarifFileOutput := true, jsonFileOutput := true }
      {} { runs := none } cxDisplay cxUpload rfl (by decide)).2 rfl
    simpa [cxDisplay] using h

end SnykCode
